import Mathlib

/-!
Verification development for the `scrap` clipboard module
(`src_c/scrap.c`): a shallow embedding of the module-level C functions
(`_scrap_init`, `_scrap_get_types`, `_scrap_contains`, `_scrap_get_scrap`,
`_scrap_put_scrap`, `_scrap_lost_scrap`, `_scrap_set_mode`,
`_scrap_get_text`, `_scrap_put_text`, `_scrap_has_text`) together with
theorems settling the behavioural claims about them.

Modelling conventions:
* Python dicts keyed by strings become association lists
  (`List (String × Bytes)`), with `PyDict_SetItemString` as overwrite-or-insert
  and `PyDict_GetItemWithError` as first-match lookup.
* The platform adapter (`pygame_scrap_init`, `pygame_scrap_lost`,
  `pygame_scrap_get`, `pygame_scrap_put`, `pygame_scrap_get_types`,
  `pygame_scrap_contains` in `scrap_sdl2.c` / `scrap_win.c`, which are not
  part of the sources under verification) is an oracle record `Adapter`
  modelled from the spec's Platform Clipboard Adapter contract.
* Python-runtime C-API failures that the C code explicitly branches on
  (`PyUnicode_FromString` returning NULL, `PyDict_GetItemWithError`
  setting an error) are injected through an `Env` record, so that the
  error-translation branches of `_scrap_get_scrap` are representable.
* `PyErr_WarnEx` deprecation advisories are modelled as non-raising
  (the default host warning policy); raising exceptions become `Except`
  errors.
-/

namespace Scrap

/-- Byte payloads (`char *` plus length in the C code). -/
abbrev Bytes := List Nat

/-- Modelled from the spec: the `ScrapClipType` encoding lives in `scrap.h`,
which is not among the sources; the spec fixes the external integer contract
as Clipboard = 0. -/
def SCRAP_CLIPBOARD : Int := 0

/-- Modelled from the spec: the `ScrapClipType` encoding lives in `scrap.h`,
which is not among the sources; the spec fixes the external integer contract
as Selection = 1. -/
def SCRAP_SELECTION : Int := 1

/-- First-match lookup in an association list: embeds
`PyDict_GetItemWithError` on a dict with string keys (the fault branch is
injected separately through `Env`). -/
def dictGet (d : List (String × Bytes)) (k : String) : Option Bytes :=
  match d with
  | [] => none
  | (k', v) :: rest => if k' = k then some v else dictGet rest k

/-- Overwrite-or-insert: embeds `PyDict_SetItemString`. -/
def dictSet (d : List (String × Bytes)) (k : String) (v : Bytes) :
    List (String × Bytes) :=
  match d with
  | [] => [(k, v)]
  | (k', v') :: rest =>
      if k' = k then (k, v) :: rest else (k', v') :: dictSet rest k v

/-- Key list of a dict: embeds `PyDict_Keys`. -/
def dictKeys (d : List (String × Bytes)) : List String :=
  d.map Prod.fst

/-- The module-level mutable globals of `scrap.c`:
`_scrapinit` models the C global `_scrapinitialized` (line 44),
`_currentmode` the C global `_currentmode` (line 49, an integer in memory:
`PyArg_ParseTuple` with format `"i"` writes a raw `int` into it),
`_clipdata` and `_selectiondata` the two cache dicts (lines 50-51). -/
structure ScrapState where
  _scrapinit : Bool
  _currentmode : Int
  _clipdata : List (String × Bytes)
  _selectiondata : List (String × Bytes)
deriving Repr, DecidableEq

/-- Modelled from the spec: the Platform Clipboard Adapter
(`scrap_sdl2.c` / `scrap_win.c`) and the host-side `VIDEO_INIT_CHECK`
(`pygame.h`) are not among the sources; this record gives the outcome of
each adapter call as the spec's adapter contract describes it.
`videoOk` is whether `VIDEO_INIT_CHECK` passes, `initOk` whether
`pygame_scrap_init` succeeds, `lost` the value of `pygame_scrap_lost`,
`putOk` whether `pygame_scrap_put` succeeds, `scrapGet` the result of
`pygame_scrap_get` (`none` for a NULL return, which the C comment notes
sets no error), `scrapTypes` the result of `pygame_scrap_get_types`
(`none` for NULL), and `scrapContains` the result of
`pygame_scrap_contains`. -/
structure Adapter where
  videoOk : Bool
  initOk : Bool
  lost : Bool
  putOk : Bool
  scrapGet : String → Option Bytes
  scrapTypes : Option (List String)
  scrapContains : String → Bool

/-- Injected Python C-API faults that `_scrap_get_scrap` branches on:
`keyFault` models `PyUnicode_FromString(scrap_type)` returning NULL
(line 260), `lookupFault` models `PyDict_GetItemWithError` returning NULL
with `PyErr_Occurred()` true (line 270). -/
structure Env where
  keyFault : Bool
  lookupFault : Bool
deriving Repr, DecidableEq

/-- The raised exceptions of the module, by identity of the C exception
object: `notInitialized` is the "scrap system not initialized" condition
of `PYGAME_SCRAP_INIT_CHECK` (modelled from the spec: the macro lives in
`scrap.h`, which is not among the sources), `sdlError` is `pgExc_SDLError`,
`valueError` is `PyExc_ValueError`, `systemError` is `PyExc_SystemError`. -/
inductive ScrapError where
  | notInitialized
  | sdlError
  | valueError
  | systemError
deriving Repr, DecidableEq

/-- Embeds `_scrap_init` (scrap.c lines 101-128): `VIDEO_INIT_CHECK`,
then — only when not yet initialized — fresh empty cache dicts, then the
unconditional `pygame_scrap_init()` adapter call, whose success sets the
initialized flag and whose failure raises `pgExc_SDLError`. -/
def scrap_init (st : ScrapState) (a : Adapter) :
    Except ScrapError Unit × ScrapState :=
  if a.videoOk = false then
    (.error .sdlError, st)
  else
    let st1 :=
      if st._scrapinit = false then
        { st with _clipdata := [], _selectiondata := [] }
      else
        st
    if a.initOk = false then
      (.error .sdlError, st1)
    else
      (.ok (), { st1 with _scrapinit := true })

/-- Embeds `_scrap_get_types` (scrap.c lines 150-196): init check; while
ownership is retained, the key list of the dict `switch`ed on
`_currentmode` (`SCRAP_SELECTION` selects `_selectiondata`, everything
else `_clipdata`); once lost, the adapter's enumeration (empty list for a
NULL return). -/
def scrap_get_types (st : ScrapState) (a : Adapter) :
    Except ScrapError (List String) :=
  if st._scrapinit = false then
    .error .notInitialized
  else if a.lost = false then
    if st._currentmode = SCRAP_SELECTION then
      .ok (dictKeys st._selectiondata)
    else
      .ok (dictKeys st._clipdata)
  else
    match a.scrapTypes with
    | none => .ok []
    | some ts => .ok ts

/-- Embeds `_scrap_contains` (scrap.c lines 201-217): parses the type tag
and delegates to `pygame_scrap_contains`; notably there is no
`PYGAME_SCRAP_INIT_CHECK` in this function. -/
def scrap_contains (st : ScrapState) (a : Adapter) (ty : String) :
    Except ScrapError Bool :=
  .ok (a.scrapContains ty)

/-- Embeds `_scrap_get_scrap` (scrap.c lines 222-295): init check; while
ownership is retained, pick the dict `switch`ed on `_currentmode`, raise
`PyExc_ValueError` when the key object cannot be built, raise
`PyExc_SystemError` when the dict lookup fails with an error set, return
None (absent) when the key is simply missing, and the cached bytes
otherwise; once ownership is lost, return `pygame_scrap_get` directly
(None for NULL, which sets no error). -/
def scrap_get_scrap (st : ScrapState) (a : Adapter) (e : Env) (ty : String) :
    Except ScrapError (Option Bytes) :=
  if st._scrapinit = false then
    .error .notInitialized
  else if a.lost = false then
    let scrap_dict :=
      if st._currentmode = SCRAP_SELECTION then st._selectiondata
      else st._clipdata
    if e.keyFault = true then
      .error .valueError
    else if e.lookupFault = true then
      .error .systemError
    else
      match dictGet scrap_dict ty with
      | none => .ok none
      | some v => .ok (some v)
  else
    match a.scrapGet ty with
    | none => .ok none
    | some bs => .ok (some bs)

/-- Embeds `_scrap_put_scrap` (scrap.c lines 300-345): init check;
`pygame_scrap_put` first, raising `pgExc_SDLError` on failure with the
state untouched; on success the payload is recorded (overwrite-or-insert)
in the dict `switch`ed on `_currentmode`. -/
def scrap_put_scrap (st : ScrapState) (a : Adapter) (ty : String)
    (p : Bytes) : Except ScrapError Unit × ScrapState :=
  if st._scrapinit = false then
    (.error .notInitialized, st)
  else if a.putOk = false then
    (.error .sdlError, st)
  else if st._currentmode = SCRAP_SELECTION then
    (.ok (), { st with _selectiondata := dictSet st._selectiondata ty p })
  else
    (.ok (), { st with _clipdata := dictSet st._clipdata ty p })

/-- Embeds `_scrap_lost_scrap` (scrap.c lines 350-363): init check, then
the boolean `pygame_scrap_lost()`. -/
def scrap_lost_scrap (st : ScrapState) (a : Adapter) :
    Except ScrapError Bool :=
  if st._scrapinit = false then
    .error .notInitialized
  else
    .ok a.lost

/-- Embeds `_scrap_set_mode` (scrap.c lines 369-389): init check, then
`PyArg_ParseTuple(args, "i", &_currentmode)` writes the parsed integer
straight into the mode global, then the validity check raises
`PyExc_ValueError` for a value that is neither `SCRAP_CLIPBOARD` nor
`SCRAP_SELECTION` (with the parsed value left stored), and a valid call
ends with the unconditional `_currentmode = SCRAP_CLIPBOARD`. -/
def scrap_set_mode (st : ScrapState) (m : Int) :
    Except ScrapError Unit × ScrapState :=
  if st._scrapinit = false then
    (.error .notInitialized, st)
  else
    let st1 := { st with _currentmode := m }
    if st1._currentmode ≠ SCRAP_CLIPBOARD ∧ st1._currentmode ≠ SCRAP_SELECTION
    then
      (.error .valueError, st1)
    else
      (.ok (), { st1 with _currentmode := SCRAP_CLIPBOARD })

/-- Embeds `_scrap_get_text` (scrap.c lines 397-416): `hasText` is
`SDL_HasClipboardText()`, `text` the buffer from `SDL_GetClipboardText()`
(an empty string on failure); the function raises `pgExc_SDLError` exactly
when the buffer is empty while the probe reported text, and returns the
buffer as a string otherwise. No init check is involved. -/
def scrap_get_text (hasText : Bool) (text : String) :
    Except ScrapError String :=
  if text = "" ∧ hasText = true then
    .error .sdlError
  else
    .ok text

/-- Embeds `_scrap_put_text` (scrap.c lines 425-439): `setOk` is whether
`SDL_SetClipboardText` returned 0; a nonzero return raises
`pgExc_SDLError`. No init check is involved. -/
def scrap_put_text (setOk : Bool) (text : String) :
    Except ScrapError Unit :=
  if setOk = false then
    .error .sdlError
  else
    .ok ()

/-- Embeds `_scrap_has_text` (scrap.c lines 447-457): the boolean
`SDL_HasClipboardText()`. No init check is involved. -/
def scrap_has_text (hasText : Bool) : Except ScrapError Bool :=
  .ok hasText

/-- A concrete adapter for closed instances: video up, init and put
succeed, ownership retained, nothing offered by the OS clipboard. -/
def adapterA : Adapter where
  videoOk := true
  initOk := true
  lost := false
  putOk := true
  scrapGet := fun _ => none
  scrapTypes := none
  scrapContains := fun _ => false

/-- A concrete fault-free Python-runtime environment. -/
def envA : Env where
  keyFault := false
  lookupFault := false

/-- A concrete initialized state with an empty cache, mode Clipboard. -/
def stInit : ScrapState where
  _scrapinit := true
  _currentmode := SCRAP_CLIPBOARD
  _clipdata := []
  _selectiondata := []

/-- A concrete uninitialized state (the process-start state: the C globals
are zero-initialized, the dicts not yet created). -/
def stUninit : ScrapState where
  _scrapinit := false
  _currentmode := SCRAP_CLIPBOARD
  _clipdata := []
  _selectiondata := []

/-- A concrete initialized state whose clipboard cache holds one entry. -/
def stCached : ScrapState where
  _scrapinit := true
  _currentmode := SCRAP_CLIPBOARD
  _clipdata := [("text/plain;charset=utf-8", [104, 105])]
  _selectiondata := []

/-- A concrete initialized state whose stored mode is the invalid integer 5
(as a failed `set_mode` call leaves behind). -/
def stInvalidMode : ScrapState where
  _scrapinit := true
  _currentmode := 5
  _clipdata := [("text/plain", [104])]
  _selectiondata := [("text/plain", [115])]

/-- Lookup after overwrite-or-insert at the same key finds the new value. -/
theorem dictGet_dictSet_self (d : List (String × Bytes)) (k : String)
    (v : Bytes) : dictGet (dictSet d k v) k = some v := by
  induction d with
  | nil => simp [dictSet, dictGet]
  | cons hd tl ih =>
      obtain ⟨k', v'⟩ := hd
      by_cases hk : k' = k
      · simp [dictSet, dictGet, hk]
      · simp [dictSet, dictGet, hk, ih]

/-- Claim C1, counterexample: on the initialized state with stored mode
Clipboard, `set_mode 2` (2 being neither Clipboard nor Selection) raises
the invalid-mode error, yet the stored mode after the call is 2, not the
Clipboard value it held before — the failed call does modify the mode
state, refuting the claim as stated. -/
theorem set_mode_invalid_modifies_mode_cex :
    (scrap_set_mode stInit 2).1 = .error .valueError ∧
      (scrap_set_mode stInit 2).2._currentmode = 2 ∧
      stInit._currentmode = SCRAP_CLIPBOARD ∧
      (2 : Int) ≠ SCRAP_CLIPBOARD :=
  ⟨rfl, rfl, rfl, by decide⟩

/-- Claim C1, amended: for every integer `m` that is neither
`SCRAP_CLIPBOARD` nor `SCRAP_SELECTION`, `set_mode m` on an initialized
state raises the invalid-mode error (`PyExc_ValueError`), but the invalid
value `m` is left stored as the mode (because `PyArg_ParseTuple` writes
the parsed integer straight into `_currentmode` before validation). -/
theorem set_mode_invalid_raises_and_stores (st : ScrapState) (m : Int)
    (hinit : st._scrapinit = true) (h0 : m ≠ SCRAP_CLIPBOARD)
    (h1 : m ≠ SCRAP_SELECTION) :
    scrap_set_mode st m = (.error .valueError, { st with _currentmode := m }) := by
  simp [scrap_set_mode, hinit, h0, h1]

/-- Claim C1, amended, witness at mode value 2 on the concrete
initialized state. -/
theorem set_mode_invalid_raises_and_stores_witness :
    scrap_set_mode stInit 2 =
      (.error .valueError, { stInit with _currentmode := 2 }) :=
  set_mode_invalid_raises_and_stores stInit 2 rfl (by decide) (by decide)

/-- Claim C2, counterexample: on an already-initialized state whose
clipboard cache holds the entry `"text/plain;charset=utf-8" ↦ [104, 105]`,
a further `init` succeeds but the entry is still present afterwards — the
second `init` call does not remove previously recorded cache entries
(the dict-recreation in `_scrap_init` is guarded by
`!pygame_scrap_initialized()`), refuting the claim as stated. -/
theorem init_reinit_keeps_cache_cex :
    (scrap_init stCached adapterA).1 = .ok () ∧
      dictGet (scrap_init stCached adapterA).2._clipdata
        "text/plain;charset=utf-8" = some [104, 105] :=
  ⟨rfl, rfl⟩

/-- Claim C2, amended: calling `init` while the module is already
initialized does not raise (given the host video check passes and the
adapter-level `pygame_scrap_init` — which is invoked again on every call —
succeeds) and leaves the whole state, in particular both buffers' cache
mappings, completely unchanged: no cache entry is removed. -/
theorem init_reinit_noop (st : ScrapState) (a : Adapter)
    (hinit : st._scrapinit = true) (hv : a.videoOk = true)
    (hi : a.initOk = true) :
    scrap_init st a = (.ok (), st) := by
  have hst : ({ st with _scrapinit := true } : ScrapState) = st := by
    cases st
    simp_all
  simp [scrap_init, hinit, hv, hi, hst]

/-- Claim C2, amended, witness on the concrete cached state. -/
theorem init_reinit_noop_witness :
    scrap_init stCached adapterA = (.ok (), stCached) :=
  init_reinit_noop stCached adapterA rfl rfl rfl

/-- Claim C3, counterexample: `set_mode SCRAP_SELECTION` on an initialized
state succeeds, yet the stored mode afterwards is `SCRAP_CLIPBOARD`, not
`SCRAP_SELECTION` — the forcing at scrap.c line 387 is unconditional, with
no platform branch in the module, so no platform family stores Selection. -/
theorem set_mode_selection_forced_cex :
    (scrap_set_mode stInit SCRAP_SELECTION).1 = .ok () ∧
      (scrap_set_mode stInit SCRAP_SELECTION).2._currentmode =
        SCRAP_CLIPBOARD ∧
      SCRAP_CLIPBOARD ≠ SCRAP_SELECTION :=
  ⟨rfl, rfl, by decide⟩

/-- Claim C3, amended: on every build of the module (the mode-forcing code
has no platform branch), a successful `set_mode SCRAP_SELECTION` stores
`SCRAP_CLIPBOARD` as the active mode, so `set_mode(Selection)` followed by
reading the mode yields Clipboard everywhere. -/
theorem set_mode_selection_yields_clipboard (st : ScrapState)
    (hinit : st._scrapinit = true) :
    scrap_set_mode st SCRAP_SELECTION =
      (.ok (), { st with _currentmode := SCRAP_CLIPBOARD }) := by
  simp [scrap_set_mode, hinit, SCRAP_CLIPBOARD, SCRAP_SELECTION]

/-- Claim C3, amended, witness on the concrete initialized state. -/
theorem set_mode_selection_yields_clipboard_witness :
    scrap_set_mode stInit SCRAP_SELECTION =
      (.ok (), { stInit with _currentmode := SCRAP_CLIPBOARD }) :=
  set_mode_selection_yields_clipboard stInit rfl

/-- Claim C4, counterexample: on the uninitialized process-start state,
`contains` does not raise the not-initialized condition — `_scrap_contains`
has no `PYGAME_SCRAP_INIT_CHECK` and simply delegates to the adapter —
refuting the claim that every one of the six generic operations fails
before `init`. -/
theorem contains_no_init_check_cex :
    scrap_contains stUninit adapterA "text/plain;charset=utf-8" =
        .ok false ∧
      scrap_contains stUninit adapterA "text/plain;charset=utf-8" ≠
        .error .notInitialized :=
  ⟨rfl, fun h => Except.noConfusion h⟩

/-- Claim C4, amended: before a successful `init`, the generic operations
`get_types`, `get`, `put`, `lost` and `set_mode` all fail with the
not-initialized condition (leaving the state untouched), but `contains`
does not — it delegates to the adapter regardless of initialization — and
the text trio `get_text`, `put_text`, `has_text` never raises a
not-initialized condition. -/
theorem init_guard_coverage (st : ScrapState) (a : Adapter) (e : Env)
    (ty : String) (p : Bytes) (m : Int) (hasText setOk : Bool) (t : String)
    (h : st._scrapinit = false) :
    scrap_get_types st a = .error .notInitialized ∧
    scrap_get_scrap st a e ty = .error .notInitialized ∧
    scrap_put_scrap st a ty p = (.error .notInitialized, st) ∧
    scrap_lost_scrap st a = .error .notInitialized ∧
    scrap_set_mode st m = (.error .notInitialized, st) ∧
    scrap_contains st a ty = .ok (a.scrapContains ty) ∧
    scrap_get_text hasText t ≠ .error .notInitialized ∧
    scrap_put_text setOk t ≠ .error .notInitialized ∧
    scrap_has_text hasText = .ok hasText := by
  refine ⟨?_, ?_, ?_, ?_, ?_, rfl, ?_, ?_, rfl⟩
  · simp [scrap_get_types, h]
  · simp [scrap_get_scrap, h]
  · simp [scrap_put_scrap, h]
  · simp [scrap_lost_scrap, h]
  · simp [scrap_set_mode, h]
  · unfold scrap_get_text
    split <;> simp
  · unfold scrap_put_text
    split <;> simp

/-- Claim C4, amended, witness on the concrete uninitialized state. -/
theorem init_guard_coverage_witness :
    scrap_get_types stUninit adapterA = .error .notInitialized ∧
    scrap_get_scrap stUninit adapterA envA "text/plain" =
      .error .notInitialized ∧
    scrap_put_scrap stUninit adapterA "text/plain" [104] =
      (.error .notInitialized, stUninit) ∧
    scrap_lost_scrap stUninit adapterA = .error .notInitialized ∧
    scrap_set_mode stUninit 1 = (.error .notInitialized, stUninit) ∧
    scrap_contains stUninit adapterA "text/plain" =
      .ok (adapterA.scrapContains "text/plain") ∧
    scrap_get_text true "hi" ≠ .error .notInitialized ∧
    scrap_put_text true "hi" ≠ .error .notInitialized ∧
    scrap_has_text true = .ok true :=
  init_guard_coverage stUninit adapterA envA "text/plain" [104] 1 true true
    "hi" rfl

/-- Claim C5: on an initialized state, while ownership is retained and no
Python-runtime fault is injected, `get` returns exactly the cache entry of
the dict selected by the current mode (with a missing type yielding
absent, not an error); while ownership is retained but the dict lookup
faults, `get` surfaces the distinct internal error (`PyExc_SystemError`);
once ownership is lost, `get` bypasses the cache and returns the adapter's
value directly (with a NULL return yielding absent, not an error). -/
theorem get_scrap_semantics (st : ScrapState) (a : Adapter) (e : Env)
    (ty : String) (hinit : st._scrapinit = true) :
    (a.lost = false → e.keyFault = false → e.lookupFault = false →
      scrap_get_scrap st a e ty =
        .ok (dictGet
          (if st._currentmode = SCRAP_SELECTION then st._selectiondata
           else st._clipdata) ty)) ∧
    (a.lost = false → e.keyFault = false → e.lookupFault = true →
      scrap_get_scrap st a e ty = .error .systemError) ∧
    (a.lost = true → scrap_get_scrap st a e ty = .ok (a.scrapGet ty)) := by
  refine ⟨?_, ?_, ?_⟩
  · intro hl hk hf
    by_cases hm : st._currentmode = SCRAP_SELECTION
    · simp only [scrap_get_scrap, hinit, hl, hk, hf, hm, if_pos, if_true]
      simp only [Bool.true_eq_false, if_false, if_true]
      cases hv : dictGet st._selectiondata ty <;> simp [hv, hm]
    · simp only [scrap_get_scrap, hinit, hl, hk, hf]
      simp only [Bool.true_eq_false, if_false, hm, if_true]
      cases hv : dictGet st._clipdata ty <;> simp [hv, hm]
  · intro hl hk hf
    simp [scrap_get_scrap, hinit, hl, hk, hf]
  · intro hl
    simp only [scrap_get_scrap, hinit, hl, Bool.true_eq_false, if_false,
      if_true]
    cases hv : a.scrapGet ty <;> simp [hv]

/-- Claim C5, witness on the concrete initialized state with the
fault-free environment and the ownership-retaining adapter. -/
theorem get_scrap_semantics_witness :
    ((adapterA.lost = false → envA.keyFault = false →
        envA.lookupFault = false →
      scrap_get_scrap stInit adapterA envA "text/plain" =
        .ok (dictGet
          (if stInit._currentmode = SCRAP_SELECTION then
            stInit._selectiondata
           else stInit._clipdata) "text/plain")) ∧
    (adapterA.lost = false → envA.keyFault = false →
        envA.lookupFault = true →
      scrap_get_scrap stInit adapterA envA "text/plain" =
        .error .systemError) ∧
    (adapterA.lost = true →
      scrap_get_scrap stInit adapterA envA "text/plain" =
        .ok (adapterA.scrapGet "text/plain"))) :=
  get_scrap_semantics stInit adapterA envA "text/plain" rfl

/-- Claim C6: on an initialized state, `put` with a failing adapter write
raises the clipboard-write error (`pgExc_SDLError`) and leaves the whole
state — in particular both buffers' cache mappings — unchanged; with a
succeeding adapter write it records the payload under the type tag in the
dict selected by the current mode. -/
theorem put_scrap_semantics (st : ScrapState) (a : Adapter) (ty : String)
    (p : Bytes) (hinit : st._scrapinit = true) :
    (a.putOk = false → scrap_put_scrap st a ty p = (.error .sdlError, st)) ∧
    (a.putOk = true →
      scrap_put_scrap st a ty p =
        (.ok (),
          if st._currentmode = SCRAP_SELECTION then
            { st with _selectiondata := dictSet st._selectiondata ty p }
          else
            { st with _clipdata := dictSet st._clipdata ty p })) := by
  refine ⟨?_, ?_⟩
  · intro hp
    simp [scrap_put_scrap, hinit, hp]
  · intro hp
    by_cases hm : st._currentmode = SCRAP_SELECTION
    · simp [scrap_put_scrap, hinit, hp, hm]
    · simp [scrap_put_scrap, hinit, hp, hm]

/-- Claim C6, witness on the concrete initialized state. -/
theorem put_scrap_semantics_witness :
    ((adapterA.putOk = false →
      scrap_put_scrap stInit adapterA "text/plain" [104] =
        (.error .sdlError, stInit)) ∧
    (adapterA.putOk = true →
      scrap_put_scrap stInit adapterA "text/plain" [104] =
        (.ok (),
          if stInit._currentmode = SCRAP_SELECTION then
            { stInit with
              _selectiondata := dictSet stInit._selectiondata
                "text/plain" [104] }
          else
            { stInit with
              _clipdata := dictSet stInit._clipdata "text/plain" [104] }))) :=
  put_scrap_semantics stInit adapterA "text/plain" [104] rfl

/-- Claim C7: on an initialized state, with a succeeding adapter write,
ownership retained and no Python-runtime fault injected, `put ty p`
succeeds and an immediately following `get ty` (no mode change in between)
returns exactly the payload `p`. -/
theorem put_get_roundtrip (st : ScrapState) (a : Adapter) (e : Env)
    (ty : String) (p : Bytes) (hinit : st._scrapinit = true)
    (hput : a.putOk = true) (hlost : a.lost = false)
    (hkf : e.keyFault = false) (hlf : e.lookupFault = false) :
    (scrap_put_scrap st a ty p).1 = .ok () ∧
    scrap_get_scrap (scrap_put_scrap st a ty p).2 a e ty = .ok (some p) := by
  by_cases hm : st._currentmode = SCRAP_SELECTION
  · simp [scrap_put_scrap, scrap_get_scrap, hinit, hput, hlost, hkf, hlf,
      hm, dictGet_dictSet_self]
  · simp [scrap_put_scrap, scrap_get_scrap, hinit, hput, hlost, hkf, hlf,
      hm, dictGet_dictSet_self]

/-- Claim C7, witness: the round trip of payload `[104, 105]` under tag
`"text/plain"` on the concrete initialized state. -/
theorem put_get_roundtrip_witness :
    (scrap_put_scrap stInit adapterA "text/plain" [104, 105]).1 = .ok () ∧
    scrap_get_scrap (scrap_put_scrap stInit adapterA "text/plain"
        [104, 105]).2 adapterA envA "text/plain" = .ok (some [104, 105]) :=
  put_get_roundtrip stInit adapterA envA "text/plain" [104, 105] rfl rfl
    rfl rfl rfl

/-- Claim C8: `get_text` raises the platform error exactly when the
"has text" probe reports text present while the read buffer is empty; in
every other case — including an empty buffer with the probe reporting no
text, which covers both an empty clipboard and a clipboard holding the
empty string — it returns the read string without error. -/
theorem get_text_error_iff (hasText : Bool) (text : String) :
    (scrap_get_text hasText text = .error .sdlError ↔
      hasText = true ∧ text = "") ∧
    (¬(hasText = true ∧ text = "") → scrap_get_text hasText text = .ok text) := by
  by_cases h : text = "" ∧ hasText = true
  · refine ⟨⟨fun _ => ⟨h.2, h.1⟩, fun _ => ?_⟩,
      fun hc => absurd ⟨h.2, h.1⟩ hc⟩
    simp [scrap_get_text, h]
  · refine ⟨⟨fun hc => ?_, fun hc => absurd ⟨hc.2, hc.1⟩ h⟩, fun _ => ?_⟩
    · simp [scrap_get_text, h] at hc
    · simp [scrap_get_text, h]

/-- Claim C8, witness at the probe reporting text and a non-empty read
buffer. -/
theorem get_text_error_iff_witness :
    (scrap_get_text true "hi" = .error .sdlError ↔
      true = true ∧ "hi" = "") ∧
    (¬(true = true ∧ "hi" = "") → scrap_get_text true "hi" = .ok "hi") :=
  get_text_error_iff true "hi"

/-- Claim C9: every successful `set_mode` call leaves `SCRAP_CLIPBOARD`
stored as the mode, so a subsequent `get` reads from and a subsequent
`put` writes to the clipboard dict `_clipdata` — the selection dict can
never be the one addressed after a successful `set_mode`. -/
theorem set_mode_success_clipboard (st : ScrapState) (m : Int)
    (a : Adapter) (e : Env) (ty : String) (p : Bytes)
    (hok : (scrap_set_mode st m).1 = .ok ()) :
    (scrap_set_mode st m).2._currentmode = SCRAP_CLIPBOARD ∧
    (a.lost = false → e.keyFault = false → e.lookupFault = false →
      scrap_get_scrap (scrap_set_mode st m).2 a e ty =
        .ok (dictGet (scrap_set_mode st m).2._clipdata ty)) ∧
    (a.putOk = true →
      scrap_put_scrap (scrap_set_mode st m).2 a ty p =
        (.ok (), { (scrap_set_mode st m).2 with
          _clipdata := dictSet (scrap_set_mode st m).2._clipdata ty p })) := by
  by_cases hinit : st._scrapinit = true
  · by_cases hm : m ≠ SCRAP_CLIPBOARD ∧ m ≠ SCRAP_SELECTION
    · exfalso
      simp [scrap_set_mode, hinit, hm] at hok
    · have hres : scrap_set_mode st m =
          (.ok (), { st with _currentmode := SCRAP_CLIPBOARD }) := by
        simp [scrap_set_mode, hinit, hm]
      rw [hres]
      refine ⟨rfl, ?_, ?_⟩
      · intro hl hk hf
        simp only [scrap_get_scrap, hinit, hl, hk, hf, SCRAP_CLIPBOARD,
          SCRAP_SELECTION, Bool.true_eq_false, if_false, if_true]
        norm_num
        cases hv : dictGet st._clipdata ty <;> simp [hv]
      · intro hp
        simp [scrap_put_scrap, hinit, hp, SCRAP_CLIPBOARD, SCRAP_SELECTION]
  · exfalso
    rw [Bool.not_eq_true] at hinit
    simp [scrap_set_mode, hinit] at hok

/-- Claim C9, witness: `set_mode SCRAP_SELECTION` on the concrete
initialized state succeeds and afterwards the clipboard dict is the one
addressed. -/
theorem set_mode_success_clipboard_witness :
    (scrap_set_mode stInit SCRAP_SELECTION).2._currentmode =
      SCRAP_CLIPBOARD ∧
    (adapterA.lost = false → envA.keyFault = false →
        envA.lookupFault = false →
      scrap_get_scrap (scrap_set_mode stInit SCRAP_SELECTION).2 adapterA
          envA "text/plain" =
        .ok (dictGet (scrap_set_mode stInit SCRAP_SELECTION).2._clipdata
          "text/plain")) ∧
    (adapterA.putOk = true →
      scrap_put_scrap (scrap_set_mode stInit SCRAP_SELECTION).2 adapterA
          "text/plain" [104] =
        (.ok (), { (scrap_set_mode stInit SCRAP_SELECTION).2 with
          _clipdata := dictSet
            (scrap_set_mode stInit SCRAP_SELECTION).2._clipdata
            "text/plain" [104] })) :=
  set_mode_success_clipboard stInit SCRAP_SELECTION adapterA envA
    "text/plain" [104] rfl

/-- Claim C10: on an initialized state whose stored mode is any value
other than `SCRAP_SELECTION` — including an invalid integer left behind by
a failed `set_mode` — the mode `switch` falls through to the clipboard
arm: `get` reads from `_clipdata` (ownership retained, no fault injected),
`put` writes to `_clipdata`, and `get_types` lists the keys of
`_clipdata`. -/
theorem non_selection_dispatch (st : ScrapState) (a : Adapter) (e : Env)
    (ty : String) (p : Bytes) (hinit : st._scrapinit = true)
    (hm : st._currentmode ≠ SCRAP_SELECTION) (hlost : a.lost = false)
    (hput : a.putOk = true) (hkf : e.keyFault = false)
    (hlf : e.lookupFault = false) :
    scrap_get_scrap st a e ty = .ok (dictGet st._clipdata ty) ∧
    scrap_put_scrap st a ty p =
      (.ok (), { st with _clipdata := dictSet st._clipdata ty p }) ∧
    scrap_get_types st a = .ok (dictKeys st._clipdata) := by
  refine ⟨?_, ?_, ?_⟩
  · simp only [scrap_get_scrap, hinit, hlost, hkf, hlf, hm,
      Bool.true_eq_false, if_false, if_true]
    cases hv : dictGet st._clipdata ty <;> simp [hv]
  · simp [scrap_put_scrap, hinit, hput, hm]
  · simp [scrap_get_types, hinit, hlost, hm]

/-- Claim C10, witness on the concrete initialized state whose stored
mode is the invalid integer 5 (with distinct payloads cached for
`"text/plain"` in the clipboard and selection dicts, so the dispatch
choice is observable). -/
theorem non_selection_dispatch_witness :
    scrap_get_scrap stInvalidMode adapterA envA "text/plain" =
      .ok (dictGet stInvalidMode._clipdata "text/plain") ∧
    scrap_put_scrap stInvalidMode adapterA "text/plain" [120] =
      (.ok (), { stInvalidMode with
        _clipdata := dictSet stInvalidMode._clipdata "text/plain" [120] }) ∧
    scrap_get_types stInvalidMode adapterA =
      .ok (dictKeys stInvalidMode._clipdata) :=
  non_selection_dispatch stInvalidMode adapterA envA "text/plain" [120]
    rfl (by decide) rfl rfl rfl rfl

end Scrap
